import Mathlib

/-!
Verification of the ipkiss ledger service (Firebase functions `balance` and
`event` over a Firestore account collection).

The account store is modelled as a partial map from account ids to integer
balances.  HTTP handlers become pure functions from a store and a request to
a response (status code plus body) and an updated store.  JavaScript
truthiness of the validated request fields is modelled explicitly: a string
field is truthy when present and non-empty, a numeric field when present and
non-zero.  Firestore transaction semantics are modelled by reading the
committed store first and then applying the buffered writes in program
order (a later write to the same document overwrites an earlier one), with
a thrown business-rule error discarding all buffered writes.
-/

namespace Ipkiss

/-- The accounts collection: each account id maps to its stored balance. -/
abbrev Store := String → Option Int

/-- `set` models both Firestore `set` (create) and `update` on a document. -/
def Store.set (s : Store) (k : String) (v : Int) : Store :=
  fun k' => if k' = k then some v else s k'

/-- The empty collection (state after a reset). -/
def Store.empty : Store := fun _ => none

/-- JS truthiness of an optional string field: present and non-empty. -/
def truthyS : Option String → Bool
  | none => false
  | some s => s ≠ ""

/-- JS truthiness of an optional numeric field: present and non-zero. -/
def truthyI : Option Int → Bool
  | none => false
  | some n => n ≠ 0

/-- Body of an HTTP response, by shape of what the handlers `send`. -/
inductive Body where
  | statusMsg (msg : String)
  | text (s : String)
  | destination (id : String) (balance : Int)
  | origin (id : String) (balance : Int)
  | originDestination (oid : String) (obal : Int) (did : String) (dbal : Int)
  deriving DecidableEq, Repr

/-- An HTTP response: status code and body. -/
structure HttpResponse where
  status : Nat
  body : Body
  deriving DecidableEq, Repr

/-- The body of a POST to the `event` endpoint. -/
structure EventReq where
  eventType : Option String
  origin : Option String
  destination : Option String
  amount : Option Int
  deriving DecidableEq, Repr

/-- A `{type:"deposit", destination, amount}` request body. -/
def depositReq (destination : String) (amount : Int) : EventReq :=
  ⟨some "deposit", none, some destination, some amount⟩

/-- A `{type:"withdraw", origin, amount}` request body. -/
def withdrawReq (origin : String) (amount : Int) : EventReq :=
  ⟨some "withdraw", some origin, none, some amount⟩

/-- A `{type:"transfer", origin, amount, destination}` request body. -/
def transferReq (origin : String) (amount : Int) (destination : String) : EventReq :=
  ⟨some "transfer", some origin, some destination, some amount⟩

/-- The `balance` handler: GET with query `account_id`. -/
def balance (store : Store) (method : String) (account_id : Option String) :
    HttpResponse :=
  if method ≠ "GET" then ⟨405, .statusMsg "Method Not Allowed."⟩
  else if ¬ truthyS account_id then ⟨400, .statusMsg "Missing account ID."⟩
  else
    match store (account_id.getD "") with
    | none => ⟨404, .text "0"⟩
    | some b => ⟨200, .text (toString b)⟩

/-- The deposit branch of the `event` handler, after field validation. -/
def depositBranch (store : Store) (destination : String) (amount : Int) :
    HttpResponse × Store :=
  match store destination with
  | none =>
      (⟨201, .destination destination amount⟩, Store.set store destination amount)
  | some currentBalance =>
      let newBalance := currentBalance + amount
      (⟨201, .destination destination newBalance⟩,
        Store.set store destination newBalance)

/-- The withdraw branch of the `event` handler, after field validation. -/
def withdrawBranch (store : Store) (origin : String) (amount : Int) :
    HttpResponse × Store :=
  match store origin with
  | none => (⟨404, .text "0"⟩, store)
  | some currentBalance =>
      if currentBalance < amount then
        (⟨400, .statusMsg "Insufficient funds."⟩, store)
      else
        let newBalance := currentBalance - amount
        (⟨201, .origin origin newBalance⟩, Store.set store origin newBalance)

/-- The transfer branch of the `event` handler, after field validation.
Both documents are read from the committed store; on success the buffered
writes (create destination if absent, update origin, update destination)
are applied in program order. A thrown `ORIGIN_NOT_FOUND` or
`INSUFFICIENT_FUNDS` aborts the transaction, leaving the store unchanged. -/
def transferBranch (store : Store) (origin : String) (amount : Int)
    (destination : String) : HttpResponse × Store :=
  match store origin with
  | none => (⟨404, .text "0"⟩, store)
  | some originBalance =>
      if originBalance < amount then
        (⟨400, .statusMsg "Insufficient funds."⟩, store)
      else
        let destinationBalance := (store destination).getD 0
        let s1 := if (store destination).isNone
                  then Store.set store destination 0 else store
        let newOriginBalance := originBalance - amount
        let newDestinationBalance := destinationBalance + amount
        let s2 := Store.set s1 origin newOriginBalance
        let s3 := Store.set s2 destination newDestinationBalance
        (⟨201, .originDestination origin newOriginBalance
                 destination newDestinationBalance⟩, s3)

/-- The `event` handler: POST with a JSON body dispatched on `type`. -/
def event (store : Store) (method : String) (req : EventReq) :
    HttpResponse × Store :=
  if method ≠ "POST" then (⟨405, .statusMsg "Method Not Allowed."⟩, store)
  else if req.eventType = some "deposit" then
    if truthyS req.destination && truthyI req.amount then
      depositBranch store (req.destination.getD "") (req.amount.getD 0)
    else (⟨400, .statusMsg "Missing destination or amount."⟩, store)
  else if req.eventType = some "withdraw" then
    if truthyS req.origin && truthyI req.amount then
      withdrawBranch store (req.origin.getD "") (req.amount.getD 0)
    else (⟨400, .statusMsg "Missing origin or amount."⟩, store)
  else if req.eventType = some "transfer" then
    if truthyS req.origin && truthyI req.amount && truthyS req.destination then
      transferBranch store (req.origin.getD "") (req.amount.getD 0)
        (req.destination.getD "")
    else (⟨400, .statusMsg "Missing origin, amount, or destination."⟩, store)
  else (⟨400, .statusMsg "Invalid event type."⟩, store)

/-! Helper lemmas about the store. -/

theorem Store.get_set_self (s : Store) (k : String) (v : Int) :
    Store.set s k v k = some v := by
  simp [Store.set]

theorem Store.get_set_ne (s : Store) (k k' : String) (v : Int) (h : k' ≠ k) :
    Store.set s k v k' = s k' := by
  simp [Store.set, h]

theorem truthyI_eq_true {n : Option Int} (h : truthyI n = true) :
    ∃ a, n = some a ∧ a ≠ 0 := by
  cases n with
  | none => simp [truthyI] at h
  | some a => exact ⟨a, rfl, by simpa [truthyI] using h⟩

theorem set_preserves_nonneg (s : Store) (key : String) (v : Int)
    (hv : 0 ≤ v) (hnn : ∀ k b, s k = some b → 0 ≤ b) :
    ∀ k b, Store.set s key v k = some b → 0 ≤ b := by
  intro k b h
  by_cases hk : k = key
  · rw [hk, Store.get_set_self] at h
    have := Option.some.inj h
    omega
  · rw [Store.get_set_ne s key k v hk] at h
    exact hnn k b h

theorem depositBranch_nonneg (store : Store) (d : String) (a : Int)
    (hpos : 0 ≤ a) (hnn : ∀ k b, store k = some b → 0 ≤ b) :
    ∀ k b, (depositBranch store d a).2 k = some b → 0 ≤ b := by
  intro k b h
  unfold depositBranch at h
  cases hsd : store d with
  | none =>
      rw [hsd] at h
      exact set_preserves_nonneg store d a hpos hnn k b h
  | some cb =>
      rw [hsd] at h
      exact set_preserves_nonneg store d (cb + a)
        (by have := hnn d cb hsd; omega) hnn k b h

theorem withdrawBranch_nonneg (store : Store) (o : String) (a : Int)
    (hnn : ∀ k b, store k = some b → 0 ≤ b) :
    ∀ k b, (withdrawBranch store o a).2 k = some b → 0 ≤ b := by
  intro k b h
  unfold withdrawBranch at h
  cases hso : store o with
  | none =>
      rw [hso] at h
      exact hnn k b h
  | some cb =>
      rw [hso] at h
      by_cases hlt : cb < a
      · simp only [if_pos hlt] at h
        exact hnn k b h
      · simp only [if_neg hlt] at h
        exact set_preserves_nonneg store o (cb - a)
          (by have := hnn o cb hso; omega) hnn k b h

theorem transferBranch_nonneg (store : Store) (o d : String) (a : Int)
    (hpos : 0 ≤ a) (hnn : ∀ k b, store k = some b → 0 ≤ b) :
    ∀ k b, (transferBranch store o a d).2 k = some b → 0 ≤ b := by
  intro k b h
  unfold transferBranch at h
  cases hso : store o with
  | none =>
      rw [hso] at h
      exact hnn k b h
  | some ob =>
      rw [hso] at h
      by_cases hlt : ob < a
      · simp only [if_pos hlt] at h
        exact hnn k b h
      · simp only [if_neg hlt] at h
        have hdb : 0 ≤ (store d).getD 0 := by
          cases hsd : store d with
          | none => simp
          | some bd => simpa using hnn d bd hsd
        have hnn1 : ∀ k b,
            (if (store d).isNone then Store.set store d 0 else store) k =
              some b → 0 ≤ b := by
          split
          · exact set_preserves_nonneg store d 0 le_rfl hnn
          · exact hnn
        have hnn2 := set_preserves_nonneg _ o (ob - a) (by omega) hnn1
        have hnn3 := set_preserves_nonneg _ d ((store d).getD 0 + a)
          (by omega) hnn2
        exact hnn3 k b h

/-! Claim theorems. -/

/-- C1: for every transfer event that succeeds (origin exists and origin
balance ≥ amount), the reported new origin and destination balances satisfy
`newOrigin + newDestination = originBalance + destinationBalance`, a
non-existent destination counting as balance 0 before. -/
theorem transfer_conserves_balance_sum (store : Store) (o d : String)
    (a ob : Int) (ho : o ≠ "") (ha : a ≠ 0) (hd : d ≠ "")
    (hob : store o = some ob) (hge : ¬ ob < a) :
    ∃ newOrigin newDestination,
      (event store "POST" (transferReq o a d)).1 =
        ⟨201, .originDestination o newOrigin d newDestination⟩ ∧
      newOrigin + newDestination = ob + (store d).getD 0 := by
  refine ⟨ob - a, (store d).getD 0 + a, ?_, by ring⟩
  simp [event, transferReq, truthyS, truthyI, ho, ha, hd, transferBranch,
    hob, hge]

theorem transfer_conserves_balance_sum_witness :
    ∃ newOrigin newDestination,
      (event (Store.empty.set "alice" 100) "POST"
          (transferReq "alice" 40 "bob")).1 =
        ⟨201, .originDestination "alice" newOrigin "bob" newDestination⟩ ∧
      newOrigin + newDestination =
        100 + ((Store.empty.set "alice" 100) "bob").getD 0 :=
  transfer_conserves_balance_sum (Store.empty.set "alice" 100) "alice" "bob"
    40 100 (by decide) (by decide) (by decide) (by decide) (by decide)

/-- C3: for every transfer event that fails a business rule (origin absent,
or origin balance < amount), the response is the 404 or 400 error and the
whole store — in particular both the origin and destination balances — is
exactly as before: no partial effect. -/
theorem transfer_abort_no_effect (store : Store) (o d : String) (a : Int)
    (ho : o ≠ "") (ha : a ≠ 0) (hd : d ≠ "")
    (hfail : store o = none ∨ ∃ ob, store o = some ob ∧ ob < a) :
    ((event store "POST" (transferReq o a d)).1.status = 404 ∨
     (event store "POST" (transferReq o a d)).1.status = 400) ∧
    (event store "POST" (transferReq o a d)).2 = store := by
  rcases hfail with h | ⟨ob, hob, hlt⟩
  · constructor
    · left
      simp [event, transferReq, truthyS, truthyI, ho, ha, hd, transferBranch, h]
    · simp [event, transferReq, truthyS, truthyI, ho, ha, hd, transferBranch, h]
  · constructor
    · right
      simp [event, transferReq, truthyS, truthyI, ho, ha, hd, transferBranch,
        hob, hlt]
    · simp [event, transferReq, truthyS, truthyI, ho, ha, hd, transferBranch,
        hob, hlt]

theorem transfer_abort_no_effect_witness :
    (((event (Store.empty.set "alice" 10) "POST"
        (transferReq "alice" 40 "bob")).1.status = 404 ∨
      (event (Store.empty.set "alice" 10) "POST"
        (transferReq "alice" 40 "bob")).1.status = 400) ∧
     (event (Store.empty.set "alice" 10) "POST"
        (transferReq "alice" 40 "bob")).2 = Store.empty.set "alice" 10) :=
  transfer_abort_no_effect (Store.empty.set "alice" 10) "alice" "bob" 40
    (by decide) (by decide) (by decide)
    (Or.inr ⟨10, by decide, by decide⟩)

/-- C4: for every withdraw event on an existing origin whose balance is
strictly less than the amount, the response is a 400 insufficient-funds
error and the store is unchanged: no partial withdrawal. -/
theorem withdraw_insufficient_no_effect (store : Store) (o : String)
    (a ob : Int) (ho : o ≠ "") (ha : a ≠ 0)
    (hob : store o = some ob) (hlt : ob < a) :
    event store "POST" (withdrawReq o a) =
      (⟨400, .statusMsg "Insufficient funds."⟩, store) := by
  simp [event, withdrawReq, truthyS, truthyI, ho, ha, withdrawBranch, hob, hlt]

theorem withdraw_insufficient_no_effect_witness :
    event (Store.empty.set "alice" 60) "POST" (withdrawReq "alice" 1000) =
      (⟨400, .statusMsg "Insufficient funds."⟩, Store.empty.set "alice" 60) :=
  withdraw_insufficient_no_effect (Store.empty.set "alice" 60) "alice"
    1000 60 (by decide) (by decide) (by decide) (by decide)

/-- C8: for every withdraw event on an existing origin with balance `ob` and
amount ≤ `ob`, the operation succeeds with status 201, the origin's stored
balance becomes exactly `ob - a`, and the response reports the origin id
with that new balance. -/
theorem withdraw_subtracts_amount (store : Store) (o : String) (a ob : Int)
    (ho : o ≠ "") (ha : a ≠ 0) (hob : store o = some ob) (hge : a ≤ ob) :
    event store "POST" (withdrawReq o a) =
      (⟨201, .origin o (ob - a)⟩, Store.set store o (ob - a)) := by
  simp [event, withdrawReq, truthyS, truthyI, ho, ha, withdrawBranch, hob,
    not_lt.mpr hge]

theorem withdraw_subtracts_amount_witness :
    event (Store.empty.set "alice" 100) "POST" (withdrawReq "alice" 40) =
      (⟨201, .origin "alice" 60⟩,
        Store.set (Store.empty.set "alice" 100) "alice" 60) :=
  withdraw_subtracts_amount (Store.empty.set "alice" 100) "alice" 40 100
    (by decide) (by decide) (by decide) (by decide)

/-- C5 counterexample: a balance query for an account that does not exist
returns body "0" but with HTTP status 404 — an error-class status, not a
success: the claim that the outcome is a success response is false. -/
theorem balance_missing_is_404 :
    balance Store.empty "GET" (some "alice") = ⟨404, .text "0"⟩ ∧
    (balance Store.empty "GET" (some "alice")).status ≠ 200 ∧
    400 ≤ (balance Store.empty "GET" (some "alice")).status := by
  decide

/-- C5 amended: for every balance query carrying an account_id that names no
existing account, the service returns the textual zero balance "0", with
HTTP status 404 (a not-found signal) rather than a 200 success. -/
theorem balance_missing_returns_zero_404 (store : Store) (id : String)
    (hid : id ≠ "") (h : store id = none) :
    balance store "GET" (some id) = ⟨404, .text "0"⟩ := by
  simp [balance, truthyS, hid, h]

theorem balance_missing_returns_zero_404_witness :
    balance Store.empty "GET" (some "alice") = ⟨404, .text "0"⟩ :=
  balance_missing_returns_zero_404 Store.empty "alice" (by decide) (by decide)

/-- C6: for every deposit event with destination and amount present (truthy):
the destination's stored balance becomes its previous balance (0 if the
account did not exist, so a fresh account gets balance = amount) plus the
amount, and the 201 response reports the destination id and that new
balance. -/
theorem deposit_adds_amount (store : Store) (d : String) (a : Int)
    (hd : d ≠ "") (ha : a ≠ 0) :
    ∃ newBalance, newBalance = (store d).getD 0 + a ∧
      event store "POST" (depositReq d a) =
        (⟨201, .destination d newBalance⟩, Store.set store d newBalance) := by
  refine ⟨(store d).getD 0 + a, rfl, ?_⟩
  cases hsd : store d with
  | none =>
      simp [event, depositReq, truthyS, truthyI, hd, ha, depositBranch, hsd]
  | some b =>
      simp [event, depositReq, truthyS, truthyI, hd, ha, depositBranch, hsd]

theorem deposit_adds_amount_witness :
    ∃ newBalance, newBalance = (Store.empty "alice").getD 0 + 100 ∧
      event Store.empty "POST" (depositReq "alice" 100) =
        (⟨201, .destination "alice" newBalance⟩,
          Store.set Store.empty "alice" newBalance) :=
  deposit_adds_amount Store.empty "alice" 100 (by decide) (by decide)

/-- C7: for every transfer event whose origin exists with balance ≥ amount
and whose destination does not exist, the commit creates the destination
with balance exactly the amount, reduces the origin by exactly the amount,
and the 201 response reports both new balances. -/
theorem transfer_creates_destination (store : Store) (o d : String)
    (a ob : Int) (ho : o ≠ "") (ha : a ≠ 0) (hd : d ≠ "")
    (hob : store o = some ob) (hge : ¬ ob < a) (hdn : store d = none) :
    (event store "POST" (transferReq o a d)).1 =
      ⟨201, .originDestination o (ob - a) d a⟩ ∧
    (event store "POST" (transferReq o a d)).2 d = some a ∧
    (event store "POST" (transferReq o a d)).2 o = some (ob - a) := by
  have hne : o ≠ d := by
    intro h
    rw [h, hdn] at hob
    exact Option.noConfusion hob
  refine ⟨?_, ?_, ?_⟩
  · simp [event, transferReq, truthyS, truthyI, ho, ha, hd, transferBranch,
      hob, hge, hdn]
  · simp [event, transferReq, truthyS, truthyI, ho, ha, hd, transferBranch,
      hob, hge, hdn, Store.get_set_self]
  · simp [event, transferReq, truthyS, truthyI, ho, ha, hd, transferBranch,
      hob, hge, hdn, Store.set, hne, Ne.symm hne]

theorem transfer_creates_destination_witness :
    ((event (Store.empty.set "alice" 100) "POST"
        (transferReq "alice" 40 "bob")).1 =
      ⟨201, .originDestination "alice" 60 "bob" 40⟩ ∧
     (event (Store.empty.set "alice" 100) "POST"
        (transferReq "alice" 40 "bob")).2 "bob" = some 40 ∧
     (event (Store.empty.set "alice" 100) "POST"
        (transferReq "alice" 40 "bob")).2 "alice" = some 60) :=
  transfer_creates_destination (Store.empty.set "alice" 100) "alice" "bob"
    40 100 (by decide) (by decide) (by decide) (by decide) (by decide)
    (by decide)

/-- C9: for every deposit, withdraw, or transfer event whose amount field is
present but equal to 0, the request is rejected with a 400 missing-field
validation error (the presence check treats a zero amount like an absent
one) and the store is not mutated. -/
theorem zero_amount_rejected (store : Store) (req : EventReq)
    (ht : req.eventType = some "deposit" ∨ req.eventType = some "withdraw" ∨
          req.eventType = some "transfer")
    (ha : req.amount = some 0) :
    (event store "POST" req).1.status = 400 ∧
    ((event store "POST" req).1.body =
        .statusMsg "Missing destination or amount." ∨
     (event store "POST" req).1.body =
        .statusMsg "Missing origin or amount." ∨
     (event store "POST" req).1.body =
        .statusMsg "Missing origin, amount, or destination.") ∧
    (event store "POST" req).2 = store := by
  rcases ht with h | h | h
  · exact ⟨by simp [event, h, ha, truthyI],
      Or.inl (by simp [event, h, ha, truthyI]),
      by simp [event, h, ha, truthyI]⟩
  · exact ⟨by simp [event, h, ha, truthyI],
      Or.inr (Or.inl (by simp [event, h, ha, truthyI])),
      by simp [event, h, ha, truthyI]⟩
  · exact ⟨by simp [event, h, ha, truthyI],
      Or.inr (Or.inr (by simp [event, h, ha, truthyI])),
      by simp [event, h, ha, truthyI]⟩

theorem zero_amount_rejected_witness :
    ((event Store.empty "POST" (depositReq "alice" 0)).1.status = 400 ∧
     ((event Store.empty "POST" (depositReq "alice" 0)).1.body =
        .statusMsg "Missing destination or amount." ∨
      (event Store.empty "POST" (depositReq "alice" 0)).1.body =
        .statusMsg "Missing origin or amount." ∨
      (event Store.empty "POST" (depositReq "alice" 0)).1.body =
        .statusMsg "Missing origin, amount, or destination.") ∧
     (event Store.empty "POST" (depositReq "alice" 0)).2 = Store.empty) :=
  zero_amount_rejected Store.empty (depositReq "alice" 0)
    (Or.inl rfl) rfl

/-- C10: for every transfer event in which origin equals destination and the
account exists with balance `b` ≥ amount, the operation succeeds with
status 201 and the account's final stored balance is `b + a` — the later
destination write overwrites the origin debit — while every other account
is untouched, so the transfer increases total balance by the amount. -/
theorem self_transfer_adds_amount (store : Store) (o : String) (a b : Int)
    (ho : o ≠ "") (ha : a ≠ 0) (hob : store o = some b) (hge : ¬ b < a) :
    (event store "POST" (transferReq o a o)).1.status = 201 ∧
    (event store "POST" (transferReq o a o)).2 o = some (b + a) ∧
    ∀ k, k ≠ o → (event store "POST" (transferReq o a o)).2 k = store k := by
  refine ⟨?_, ?_, ?_⟩
  · simp [event, transferReq, truthyS, truthyI, ho, ha, transferBranch,
      hob, hge]
  · simp [event, transferReq, truthyS, truthyI, ho, ha, transferBranch,
      hob, hge, Store.get_set_self]
  · intro k hk
    simp [event, transferReq, truthyS, truthyI, ho, ha, transferBranch,
      hob, hge, Store.set, hk]

theorem self_transfer_adds_amount_witness :
    ((event (Store.empty.set "alice" 100) "POST"
        (transferReq "alice" 40 "alice")).1.status = 201 ∧
     (event (Store.empty.set "alice" 100) "POST"
        (transferReq "alice" 40 "alice")).2 "alice" = some 140 ∧
     ∀ k, k ≠ "alice" →
       (event (Store.empty.set "alice" 100) "POST"
          (transferReq "alice" 40 "alice")).2 k =
         (Store.empty.set "alice" 100) k) :=
  self_transfer_adds_amount (Store.empty.set "alice" 100) "alice" 40 100
    (by decide) (by decide) (by decide) (by decide)

/-- C2 counterexample: the presence check accepts a negative amount, and a
transfer of -5 from an account holding 0 succeeds (status 201) and leaves
the destination at -5: starting from a store whose balances are all
non-negative, an accepted transfer drives a balance negative. -/
theorem negative_transfer_breaks_nonneg :
    (∀ k b, Store.set Store.empty "a" 0 k = some b → 0 ≤ b) ∧
    (event (Store.set Store.empty "a" 0) "POST"
        (transferReq "a" (-5) "b")).1.status = 201 ∧
    (event (Store.set Store.empty "a" 0) "POST"
        (transferReq "a" (-5) "b")).2 "b" = some (-5) ∧
    ¬ (0 : Int) ≤ -5 := by
  refine ⟨?_, by decide, by decide, by decide⟩
  intro k b h
  unfold Store.set Store.empty at h
  by_cases hk : k = "a"
  · rw [if_pos hk] at h
    have := Option.some.inj h
    omega
  · rw [if_neg hk] at h
    exact Option.noConfusion h

/-- C2 amended: for every event accepted by the service whose amount, when
present, is strictly positive (a negative amount also passes the presence
check and can drive the transfer destination negative, so positivity is
required), every stored balance stays non-negative whenever all balances
were non-negative before: no withdraw or transfer with a positive amount
makes a balance go negative. -/
theorem event_preserves_nonneg (store : Store) (method : String)
    (req : EventReq) (hamt : ∀ a, req.amount = some a → 0 < a)
    (hnn : ∀ k b, store k = some b → 0 ≤ b) :
    ∀ k b, (event store method req).2 k = some b → 0 ≤ b := by
  intro k b h
  unfold event at h
  split at h
  · exact hnn k b h
  · split at h
    · split at h
      · next hval =>
          simp only [Bool.and_eq_true] at hval
          obtain ⟨-, hai⟩ := hval
          obtain ⟨a, ha, -⟩ := truthyI_eq_true hai
          have hpos := hamt a ha
          rw [ha] at h
          exact depositBranch_nonneg store (req.destination.getD "") a
            (le_of_lt hpos) hnn k b h
      · exact hnn k b h
    · split at h
      · split at h
        · next hval =>
            simp only [Bool.and_eq_true] at hval
            obtain ⟨-, hai⟩ := hval
            obtain ⟨a, ha, -⟩ := truthyI_eq_true hai
            rw [ha] at h
            exact withdrawBranch_nonneg store (req.origin.getD "") a
              hnn k b h
        · exact hnn k b h
      · split at h
        · split at h
          · next hval =>
              simp only [Bool.and_eq_true] at hval
              obtain ⟨⟨-, hai⟩, -⟩ := hval
              obtain ⟨a, ha, -⟩ := truthyI_eq_true hai
              have hpos := hamt a ha
              rw [ha] at h
              exact transferBranch_nonneg store (req.origin.getD "")
                (req.destination.getD "") a (le_of_lt hpos) hnn k b h
          · exact hnn k b h
        · exact hnn k b h

theorem event_preserves_nonneg_witness :
    ∃ b, (event (Store.set Store.empty "alice" 100) "POST"
        (transferReq "alice" 40 "bob")).2 "bob" = some b ∧ 0 ≤ b :=
  ⟨40, by decide,
    event_preserves_nonneg (Store.set Store.empty "alice" 100) "POST"
      (transferReq "alice" 40 "bob")
      (fun a ha => by have := Option.some.inj ha; omega)
      (fun k b h => by
        unfold Store.set Store.empty at h
        by_cases hk : k = "alice"
        · rw [if_pos hk] at h
          have := Option.some.inj h
          omega
        · rw [if_neg hk] at h
          exact Option.noConfusion h)
      "bob" 40 (by decide)⟩

end Ipkiss
